import Mathlib

/-
Verification of the node server of the azuredisk CSI driver
(pkg/azuredisk/nodeserver.go) against its natural-language specification.

The Go code is shallowly embedded: every external collaborator (mounter,
host utilities, cloud provider) is an injected environment record whose
fields hold the outcomes the collaborator would produce for the one request
under consideration, and every OS-state-mutating call the code performs is
recorded in an explicit action trace.  Helpers of the repository that are
not part of the provided source (the lock map, RoundUpGiB, zone validation,
the bounded poller, LUN parsing) are modelled from the specification and
marked as such in their doc comments.
-/

namespace AzureDiskNode

/-- gRPC status codes used by the node server. -/
inductive GrpcCode where
  | invalidArgument
  | aborted
  | internal
  | notFound
deriving DecidableEq, Repr

/-- A gRPC error: a status code together with its message. -/
structure GrpcError where
  code : GrpcCode
  msg : String
deriving DecidableEq, Repr

/-- OS-state-mutating operations performed by the node server; reads
(IsLikelyNotMountPoint, ReadDir, List, stat) are not mutations and are not
traced. -/
inductive OsAction where
  | unmountFs (target : String)
  | mkDirAction (target : String)
  | formatAndMount (source target fsType : String) (options : List String)
  | resizeFs (devicePath volumePath : String)
  | bindMount (source target : String)
  | makeFileAction (target : String)
  | removeFile (target : String)
  | optimizePerf (device : String)
  | rescanAll
  | rescanDevice (device : String)
  | cleanupMount (target : String)
deriving DecidableEq, Repr

/-- Filesystem-semantics actions: mount-point reconciliation mutations,
formatting, mounting, unmounting and resizing. -/
def OsAction.isFsSemantics : OsAction → Bool
  | .unmountFs _ => true
  | .mkDirAction _ => true
  | .formatAndMount _ _ _ _ => true
  | .resizeFs _ _ => true
  | .bindMount _ _ => true
  | .cleanupMount _ => true
  | _ => false

/-- The set of volume IDs whose per-volume lock is currently held. -/
abbrev Locks := List String

/-- Modelled from the spec: the Volume Lock Table's non-blocking
try-acquire (volumeLocks.TryAcquire, code not under src/): keyed by Volume
ID, a second acquire for an already-held ID fails immediately, otherwise
the ID is recorded as held. -/
def tryAcquire (locks : Locks) (id : String) : Bool × Locks :=
  if locks.contains id then (false, locks) else (true, id :: locks)

/-- Modelled from the spec: the Volume Lock Table's release
(volumeLocks.Release, code not under src/): the held ID is removed. -/
def release (locks : Locks) (id : String) : Locks :=
  locks.erase id

/-- The `volumeOperationAlreadyExistsFmt` message instantiated with a volume ID. -/
def volumeOperationAlreadyExists (volumeId : String) : String :=
  s!"An operation with the given Volume ID {volumeId} already exists"

def defaultLinuxFsType : String := "ext4"

def defaultWindowsFsType : String := "ntfs"

/-- getDefaultFsType: ntfs on Windows, ext4 otherwise; the runtime.GOOS
test is the explicit flag `goosWindows`. -/
def getDefaultFsType (goosWindows : Bool) : String :=
  if goosWindows then defaultWindowsFsType else defaultLinuxFsType

/-- Lookup of a key in a Go string map (request contexts are embedded as
association lists). -/
def lookupParam (ps : List (String × String)) (k : String) : Option String :=
  (ps.find? fun p => p.1 == k).map fun p => p.2

/-- Error returned by the mounter's IsLikelyNotMountPoint, classified by
whether os.IsNotExist holds for it. -/
inductive MounterErrKind where
  | notExist
  | other
deriving DecidableEq, Repr

structure MounterErr where
  kind : MounterErrKind
  msg : String
deriving DecidableEq, Repr

/-- Environment of one ensureMountPoint call for a fixed target: the
outcomes of the mounter and OS calls it may perform. -/
structure EMPEnv where
  goosWindows : Bool
  /-- IsLikelyNotMountPoint(target): the (notMnt, err) pair. -/
  isLikelyNotMountPoint : Bool × Option MounterErr
  /-- azureutils.IsCorruptedDir(target). -/
  isCorruptedDir : Bool
  /-- mounter.List(): the paths of the active mount points, or an error. -/
  listMounts : Except String (List String)
  /-- filepath.Abs(target). -/
  absTarget : Except String String
  /-- os.ReadDir(target): none on success, the error otherwise. -/
  readDir : Option String
  /-- mounter.Unmount(target): none on success. -/
  unmount : Option String
  /-- volumehelper.MakeDir(target): none on success. -/
  makeDir : Option String
deriving Repr

/-- ensureMountPoint, final section (from the `if !notMnt` test on): health
check of an apparently mounted target via ReadDir, unmount of a broken
mount link, and directory creation for an unmounted target. -/
def empAfterCheck (target : String) (env : EMPEnv) (notMnt : Bool) :
    (Bool × Option String) × List OsAction :=
  if !notMnt then
    match env.readDir with
    | none => ((!notMnt, none), [])
    | some rdErr =>
      match env.unmount with
      | some uErr => ((!notMnt, some uErr), [OsAction.unmountFs target])
      | none => ((false, some rdErr), [OsAction.unmountFs target])
  else
    if !env.goosWindows then
      match env.makeDir with
      | some e => ((!notMnt, some e), [OsAction.mkDirAction target])
      | none => ((!notMnt, none), [OsAction.mkDirAction target])
    else ((!notMnt, none), [])

/-- ensureMountPoint, middle section: on non-Windows platforms cross-check
the target against the full mount list (covers bind mounts that
IsLikelyNotMountPoint cannot classify). -/
def empListCheck (target : String) (env : EMPEnv) (notMnt : Bool) :
    (Bool × Option String) × List OsAction :=
  if !env.goosWindows then
    match env.listMounts with
    | .error e => ((!notMnt, some e), [])
    | .ok mountList =>
      match env.absTarget with
      | .error e => ((!notMnt, some e), [])
      | .ok targetAbs =>
        empAfterCheck target env (if mountList.contains targetAbs then false else notMnt)
  else empAfterCheck target env notMnt

/-- ensureMountPoint: returns the Go pair (isMountPoint, err) together with
the trace of OS mutations it performed. -/
def ensureMountPoint (target : String) (env : EMPEnv) :
    (Bool × Option String) × List OsAction :=
  let (notMnt, errOpt) := env.isLikelyNotMountPoint
  match errOpt with
  | some e =>
    match e.kind with
    | .notExist => empListCheck target env notMnt
    | .other =>
      if env.isCorruptedDir then empListCheck target env false
      else ((!notMnt, some e.msg), [])
  | none => empListCheck target env notMnt

/-- The mount description of a volume capability (csi.VolumeCapability_MountVolume):
filesystem type and mount flags. -/
structure MountSpec where
  fsType : String
  mountFlags : List String
deriving DecidableEq, Repr

/-- The access type of a volume capability (oneof: block or mount). -/
inductive AccessType where
  | block
  | mnt (m : MountSpec)
deriving DecidableEq, Repr

structure VolumeCapability where
  accessType : AccessType
deriving DecidableEq, Repr

/-- csi.NodeStageVolumeRequest, with the Go string maps as association
lists. -/
structure StageRequest where
  volumeId : String
  stagingTargetPath : String
  volumeCapability : Option VolumeCapability
  volumeContext : List (String × String)
  publishContext : List (String × String)
deriving Repr

/-- consts.LUN: the publish-context key carrying the attachment slot. -/
def lunKey : String := "LUN"

/-- consts.VolumeAttributePartition. -/
def partitionKey : String := "partition"

/-- consts.ResizeRequired. -/
def resizeRequiredKey : String := "resizeRequired"

/-- Modelled from the spec: azureutils.GetFStype (code not under src/)
reads the explicit filesystem-type attribute from the volume context,
yielding the empty string when it is absent. -/
def getFStype (volumeContext : List (String × String)) : String :=
  (lookupParam volumeContext "fstype").getD ""

/-- collectMountOptions: caller flags plus the duplicate-UUID-ignore
option for xfs. -/
def collectMountOptions (fsType : String) (mntFlags : List String) : List String :=
  if fsType == "xfs" then mntFlags ++ ["nouuid"] else mntFlags

/-- Environment of one NodeStageVolume call: outcomes of every injected
collaborator consulted for this request. -/
structure StageEnv where
  goosWindows : Bool
  /-- azureutils.GetMaxShares(params) (code not under src/): the parsed
  value or an error. -/
  getMaxShares : Except String Nat
  /-- azureutils.IsValidVolumeCapabilities (code not under src/): none
  when valid, the error message otherwise. -/
  isValidVolumeCapabilities : Option String
  /-- d.getDevicePathWithLUN(lun): the resolved device path or an error
  (the device locator itself is embedded separately as
  getDevicePathWithLUN). -/
  getDevicePath : Except String String
  perfOptimizationEnabled : Bool
  /-- optimization.GetDiskPerfAttributes: none models success (the
  attribute values themselves are only passed through). -/
  perfAttrs : Except String Unit
  diskSupportsPerfOptimization : Bool
  /-- deviceHelper.OptimizeDiskPerformance: none on success. -/
  optimizeDiskPerformance : Option String
  /-- ensureMountPoint environment for the staging target path. -/
  emp : EMPEnv
  /-- formatAndMount(source, target, fstype, options): none on success. -/
  formatAndMount : Option String
  /-- needResizeVolume(source, target): whether a resize is needed, or an
  error (logged, not fatal). -/
  needResizeVolume : Except String Bool
  /-- resizeVolume(source, target): none on success. -/
  resizeVolume : Option String
deriving Repr

/-- The perf-optimization step of NodeStageVolume (lines 111-125): either
an internal error or the trace of the device tuning performed. -/
def stagePerfStep (env : StageEnv) (source : String) : Option GrpcError × List OsAction :=
  if env.perfOptimizationEnabled then
    match env.perfAttrs with
    | .error e =>
      (some ⟨.internal, s!"failed to get perf attributes for {source}. Error: {e}"⟩, [])
    | .ok _ =>
      if env.diskSupportsPerfOptimization then
        match env.optimizeDiskPerformance with
        | some e =>
          (some ⟨.internal, s!"failed to optimize device performance for target({source}) error({e})"⟩,
            [OsAction.optimizePerf source])
        | none => (none, [OsAction.optimizePerf source])
      else (none, [])
  else (none, [])

/-- The Go local `fstype` right before the option list is collected: the
capability mount spec's filesystem type when non-empty, the platform
default otherwise. -/
def stageFsTypeCap (env : StageEnv) (m : MountSpec) : String :=
  if m.fsType != "" then m.fsType else getDefaultFsType env.goosWindows

/-- The Go local `options`: the mount options collected for the
capability-derived filesystem type (computed before the volume-context
override of `fstype`). -/
def stageOptions (env : StageEnv) (m : MountSpec) : List String :=
  collectMountOptions (stageFsTypeCap env m) m.mountFlags

/-- The effective `fstype` passed to formatAndMount: the explicit
volume-context attribute when present, otherwise the capability-derived
type. -/
def stageEffectiveFsType (req : StageRequest) (env : StageEnv) (m : MountSpec) : String :=
  if getFStype req.volumeContext != "" then getFStype req.volumeContext
  else stageFsTypeCap env m

/-- The Go local `source` after the optional partition suffix. -/
def stageSource (req : StageRequest) (source0 : String) : String :=
  match lookupParam req.volumeContext partitionKey with
  | some part => source0 ++ "-part" ++ part
  | none => source0

/-- The Go local `needResize`: the explicit resize-required marker, else
the needResizeVolume heuristic whose failure defaults to false. -/
def stageNeedResize (req : StageRequest) (env : StageEnv) : Bool :=
  let markedResize :=
    match lookupParam req.volumeContext resizeRequiredKey with
    | some r => r.toLower == "true"
    | none => false
  if markedResize then true
  else
    match env.needResizeVolume with
    | .ok b => b
    | .error _ => false

/-- The format-and-mount plus resize-on-stage tail of NodeStageVolume
(lines 142-191), reached for a mount-access volume whose target is not yet
mounted. -/
def stageFormatStep (req : StageRequest) (env : StageEnv) (m : MountSpec)
    (lun source0 : String) : Except GrpcError Unit × List OsAction :=
  match env.formatAndMount with
  | some e =>
    (.error ⟨.internal,
        s!"could not format {stageSource req source0}(lun: {lun}), and mount it at {req.stagingTargetPath}, failed with {e}"⟩,
      [OsAction.formatAndMount (stageSource req source0) req.stagingTargetPath
          (stageEffectiveFsType req env m) (stageOptions env m)])
  | none =>
    if stageNeedResize req env then
      match env.resizeVolume with
      | some e =>
        (.error ⟨.internal,
            s!"NodeStageVolume: could not resize volume {stageSource req source0} ({req.stagingTargetPath}):  {e}"⟩,
          [OsAction.formatAndMount (stageSource req source0) req.stagingTargetPath
              (stageEffectiveFsType req env m) (stageOptions env m),
            OsAction.resizeFs (stageSource req source0) req.stagingTargetPath])
      | none =>
        (.ok (),
          [OsAction.formatAndMount (stageSource req source0) req.stagingTargetPath
              (stageEffectiveFsType req env m) (stageOptions env m),
            OsAction.resizeFs (stageSource req source0) req.stagingTargetPath])
    else
      (.ok (),
        [OsAction.formatAndMount (stageSource req source0) req.stagingTargetPath
            (stageEffectiveFsType req env m) (stageOptions env m)])

/-- Body of NodeStageVolume executed while the per-volume lock is held
(lines 99-191): LUN lookup, device resolution, perf tuning, the raw-block
short-circuit, mount-state reconciliation, then the format/mount/resize
tail. -/
def nodeStageVolumeLocked (req : StageRequest) (env : StageEnv) (cap : VolumeCapability) :
    Except GrpcError Unit × List OsAction :=
  match lookupParam req.publishContext lunKey with
  | none => (.error ⟨.invalidArgument, "lun not provided"⟩, [])
  | some lun =>
    match env.getDevicePath with
    | .error e => (.error ⟨.internal, s!"failed to find disk on lun {lun}. {e}"⟩, [])
    | .ok source0 =>
      match stagePerfStep env source0 with
      | (some e, perfActs) => (.error e, perfActs)
      | (none, perfActs) =>
        match cap.accessType with
        | .block => (.ok (), perfActs)
        | .mnt m =>
          match ensureMountPoint req.stagingTargetPath env.emp with
          | ((isMnt, mntErr), empActs) =>
            match mntErr with
            | some e =>
              (.error ⟨.internal, s!"could not mount target {req.stagingTargetPath}: {e}"⟩,
                perfActs ++ empActs)
            | none =>
              if isMnt then (.ok (), perfActs ++ empActs)
              else
                match stageFormatStep req env m lun source0 with
                | (res, fmtActs) => (res, perfActs ++ empActs ++ fmtActs)

/-- NodeStageVolume: validation, the per-volume try-lock with guaranteed
release (the Go defer), and the locked body. Returns the gRPC result, the
final lock table, and the trace of OS mutations. -/
def nodeStageVolume (req : StageRequest) (env : StageEnv) (locks : Locks) :
    Except GrpcError Unit × Locks × List OsAction :=
  if req.volumeId == "" then
    (.error ⟨.invalidArgument, "Volume ID not provided"⟩, locks, [])
  else if req.stagingTargetPath == "" then
    (.error ⟨.invalidArgument, "Staging target not provided"⟩, locks, [])
  else
    match req.volumeCapability with
    | none => (.error ⟨.invalidArgument, "Volume capability not provided"⟩, locks, [])
    | some cap =>
      match env.getMaxShares with
      | .error _ => (.error ⟨.invalidArgument, "MaxShares value not supported"⟩, locks, [])
      | .ok _ =>
        match env.isValidVolumeCapabilities with
        | some e => (.error ⟨.invalidArgument, e⟩, locks, [])
        | none =>
          match tryAcquire locks req.volumeId with
          | (acquired, locks1) =>
            if acquired then
              match nodeStageVolumeLocked req env cap with
              | (res, acts) => (res, release locks1 req.volumeId, acts)
            else
              (.error ⟨.aborted, volumeOperationAlreadyExists req.volumeId⟩, locks1, [])

/-- csi.NodeUnstageVolumeRequest. -/
structure UnstageRequest where
  volumeId : String
  stagingTargetPath : String
deriving Repr

structure UnstageEnv where
  /-- CleanupMountPoint(stagingTargetPath, ...): none on success. -/
  cleanupMountPoint : Option String
deriving Repr

/-- NodeUnstageVolume: validation, per-volume try-lock with guaranteed
release, idempotent unmount-and-cleanup. -/
def nodeUnstageVolume (req : UnstageRequest) (env : UnstageEnv) (locks : Locks) :
    Except GrpcError Unit × Locks × List OsAction :=
  if req.volumeId == "" then
    (.error ⟨.invalidArgument, "Volume ID not provided"⟩, locks, [])
  else if req.stagingTargetPath == "" then
    (.error ⟨.invalidArgument, "Staging target not provided"⟩, locks, [])
  else
    match tryAcquire locks req.volumeId with
    | (acquired, locks1) =>
      if acquired then
        match env.cleanupMountPoint with
        | some e =>
          (.error ⟨.internal, s!"failed to unmount staging target {req.stagingTargetPath}: {e}"⟩,
            release locks1 req.volumeId, [OsAction.cleanupMount req.stagingTargetPath])
        | none =>
          (.ok (), release locks1 req.volumeId, [OsAction.cleanupMount req.stagingTargetPath])
      else
        (.error ⟨.aborted, volumeOperationAlreadyExists req.volumeId⟩, locks1, [])

/-- One gibibyte in bytes. -/
def giB : Int := 1073741824

/-- Modelled from the spec: volumehelper.RoundUpGiB (code not under src/)
rounds a byte count up to whole gibibyte units by ceiling division, never
rounding down (written with Go truncating division plus the round-up
correction). -/
def roundUpGiB (volumeSizeBytes : Int) : Int :=
  if volumeSizeBytes.tdiv giB * giB < volumeSizeBytes then volumeSizeBytes.tdiv giB + 1
  else volumeSizeBytes.tdiv giB

/-- csi.NodeExpandVolumeResponse: the measured capacity in bytes (zero in
the raw-block short-circuit, which returns the empty response). -/
structure ExpandResponse where
  capacityBytes : Int
deriving DecidableEq, Repr

/-- csi.NodeExpandVolumeRequest: capacityRange.requiredBytes together with
the path and optional capability. -/
structure ExpandRequest where
  volumeId : String
  requiredBytes : Int
  volumePath : String
  volumeCapability : Option VolumeCapability
deriving Repr

structure ExpandEnv where
  /-- hostUtil.PathIsDevice(volumePath). -/
  pathIsDevice : Except String Bool
  enableDiskOnlineResize : Bool
  /-- getDevicePathWithMountPath(volumePath, mounter). -/
  getDevicePathWithMountPath : Except String String
  /-- resizeVolume(devicePath, volumePath, mounter): none on success. -/
  resizeVolume : Option String
  /-- runtime.GOOS == windows && d.enableWindowsHostProcess. -/
  windowsHostProcess : Bool
  /-- getBlockSizeBytes(devicePath, mounter), as a function of the path it
  is invoked on. -/
  getBlockSizeBytes : String → Except String Int

/-- NodeExpandVolume's raw-block determination: the path inspection
result, refined by the supplied capability when inspection said false. -/
def expandIsBlock (req : ExpandRequest) (isBlock0 : Bool) : Bool :=
  if isBlock0 then true
  else
    match req.volumeCapability with
    | some cap =>
      match cap.accessType with
      | .block => true
      | .mnt _ => false
    | none => false

/-- The remembered resize error of NodeExpandVolume. -/
def expandResizeErrMsg (volumeId devicePath e : String) : String :=
  s!"could not resize volume {volumeId} ({devicePath}):  {e}"

/-- The generic failure when the measured size stays below the request and
no resize error was remembered. -/
def expandMismatchMsg (requestGiB gotBlockGiB : Int) : String :=
  s!"resize requested for {requestGiB}, but after resizing volume size was {gotBlockGiB}"

/-- The OS mutations of the locked Expand body once the device path has
resolved: the feature-gated single-device rescan and the resize attempt. -/
def expandTrace (req : ExpandRequest) (env : ExpandEnv) (devicePath0 : String) : List OsAction :=
  (if env.enableDiskOnlineResize then [OsAction.rescanDevice devicePath0] else []) ++
    [OsAction.resizeFs devicePath0 req.volumePath]

/-- The Go local `retErr`: the remembered (not immediately fatal) resize
error. -/
def expandRetErr (req : ExpandRequest) (env : ExpandEnv) (devicePath0 : String) :
    Option GrpcError :=
  match env.resizeVolume with
  | some e => some ⟨.internal, expandResizeErrMsg req.volumeId devicePath0 e⟩
  | none => none

/-- The path whose block size is measured: the volume path in Windows
host-process mode, the resolved device path otherwise. -/
def expandSizePath (req : ExpandRequest) (env : ExpandEnv) (devicePath0 : String) : String :=
  if env.windowsHostProcess then req.volumePath else devicePath0

/-- Body of NodeExpandVolume executed while the per-volume lock is held
(lines 529-569): device-path resolution, feature-gated rescan, the resize
attempt whose error is remembered rather than fatal, and the post-resize
measurement with the request comparison. -/
def nodeExpandVolumeLocked (req : ExpandRequest) (env : ExpandEnv) (requestGiB : Int) :
    Except GrpcError ExpandResponse × List OsAction :=
  match env.getDevicePathWithMountPath with
  | .error e => (.error ⟨.notFound, e⟩, [])
  | .ok devicePath0 =>
    match env.getBlockSizeBytes (expandSizePath req env devicePath0) with
    | .error e =>
      (.error ⟨.internal,
          s!"could not get size of block volume at path {expandSizePath req env devicePath0}: {e}"⟩,
        expandTrace req env devicePath0)
    | .ok gotBlockSizeBytes =>
      if roundUpGiB gotBlockSizeBytes < requestGiB then
        match expandRetErr req env devicePath0 with
        | some e => (.error e, expandTrace req env devicePath0)
        | none =>
          (.error ⟨.internal, expandMismatchMsg requestGiB (roundUpGiB gotBlockSizeBytes)⟩,
            expandTrace req env devicePath0)
      else (.ok ⟨gotBlockSizeBytes⟩, expandTrace req env devicePath0)

/-- NodeExpandVolume: validation, GiB rounding of the request, raw-block
short-circuit (feature-gated rescan only), then the locked resize body
with guaranteed lock release. -/
def nodeExpandVolume (req : ExpandRequest) (env : ExpandEnv) (locks : Locks) :
    Except GrpcError ExpandResponse × Locks × List OsAction :=
  if req.volumeId == "" then
    (.error ⟨.invalidArgument, "Volume ID not provided"⟩, locks, [])
  else if req.volumePath == "" then
    (.error ⟨.invalidArgument, "volume path must be provided"⟩, locks, [])
  else
    match env.pathIsDevice with
    | .error e =>
      (.error ⟨.notFound, s!"failed to determine device path for volumePath [{req.volumePath}]: {e}"⟩,
        locks, [])
    | .ok isBlock0 =>
      if expandIsBlock req isBlock0 then
        (.ok ⟨0⟩, locks, if env.enableDiskOnlineResize then [OsAction.rescanAll] else [])
      else
        match tryAcquire locks req.volumeId with
        | (acquired, locks1) =>
          if acquired then
            match nodeExpandVolumeLocked req env (roundUpGiB req.requiredBytes) with
            | (res, acts) => (res, release locks1 req.volumeId, acts)
          else
            (.error ⟨.aborted, volumeOperationAlreadyExists req.volumeId⟩, locks1, [])

/-- The timeout error of the bounded poller (wait.ErrWaitTimeout). -/
def pollTimeoutMsg : String := "timed out waiting for the condition"

/-- Modelled from the spec: one round of the external bounded poller
(wait.PollImmediate). `i` is the iteration index (the attempt at elapsed
time i * interval); `fuel` is the number of attempts remaining before the
deadline. A condition error aborts the poll; a true condition succeeds at
the current iteration; otherwise the poller waits one interval and tries
again until the deadline elapses. -/
def pollRounds (cond : Nat → Except String Bool) : Nat → Nat → Except String Nat
  | _, 0 => .error pollTimeoutMsg
  | i, fuel + 1 =>
    match cond i with
    | .error e => .error e
    | .ok true => .ok i
    | .ok false => pollRounds cond (i + 1) fuel

/-- Modelled from the spec: wait.PollImmediate(interval, deadline, cond)
runs the condition immediately and then at the fixed interval, for
attempts strictly inside the deadline, returning the successful iteration
index or the timeout error once the deadline elapses. -/
def pollImmediateSec (intervalSec deadlineSec : Nat) (cond : Nat → Except String Bool) :
    Except String Nat :=
  pollRounds cond 0 (deadlineSec / intervalSec)

/-- Decimal-digit accumulator for the attachment-slot parser. -/
def parseDigits : List Char → Nat → Option Nat
  | [], acc => some acc
  | c :: cs, acc =>
    if 48 ≤ c.toNat ∧ c.toNat ≤ 57 then parseDigits cs (acc * 10 + (c.toNat - 48))
    else none

/-- A non-negative decimal integer, or none. -/
def parseNonNegInt (s : String) : Option Nat :=
  match s.data with
  | [] => none
  | cs => parseDigits cs 0

/-- Modelled from the spec: azureutils.GetDiskLUN (code not under src/)
parses the attachment-slot string, failing with an invalid-argument signal
unless it is a valid non-negative integer. -/
def getDiskLUN (lunStr : String) : Except String Nat :=
  match parseNonNegInt lunStr with
  | some lun => .ok lun
  | none => .error s!"cannot parse deviceInfo: {lunStr}"

/-- Environment of the device locator: what findDiskByLun would report at
each poll iteration (the empty string means no matching device yet). -/
structure DeviceEnv where
  findDiskByLun : Nat → Except String String

/-- The poll condition of getDevicePathWithLUN: findDiskByLun errors abort
the poll, a non-empty path succeeds, an empty path keeps waiting. -/
def devCond (env : DeviceEnv) (lun : Nat) (i : Nat) : Except String Bool :=
  match env.findDiskByLun i with
  | .error e => .error s!"azureDisk - findDiskByLun({lun}) failed with error({e})"
  | .ok p => .ok (p != "")

/-- getDevicePathWithLUN: parse the slot, then poll at a fixed 1-second
interval for up to a 2-minute deadline for a device node matching the
slot; the best-effort scsiHostRescan preceding the poll is advisory and
not modelled. The final empty-path check mirrors the defensive
`err == nil && newDevicePath == ""` branch of the source. -/
def getDevicePathWithLUN (env : DeviceEnv) (lunStr : String) : Except String String :=
  match getDiskLUN lunStr with
  | .error e => .error e
  | .ok lun =>
    match pollImmediateSec 1 120 (devCond env lun) with
    | .error e => .error e
    | .ok i =>
      match env.findDiskByLun i with
      | .error e => .error s!"azureDisk - findDiskByLun({lun}) failed with error({e})"
      | .ok p =>
        if p == "" then .error s!"azureDisk - findDiskByLun({lun}) failed within timeout"
        else .ok p

/-- Environment of one ensureBlockTargetFile call. -/
structure BlockTargetEnv where
  /-- filepath.Dir(target). -/
  parentDir : String
  /-- ensureMountPoint environment for the parent directory. -/
  empParent : EMPEnv
  /-- volumehelper.MakeFile(target): none on success. -/
  makeFile : Option String
  /-- os.Remove(target): none on success. -/
  removeTarget : Option String
deriving Repr

/-- ensureBlockTargetFile: ensure the parent directory is a valid mount
point, then create the target as a file; on creation failure remove the
partial target and surface an error. -/
def ensureBlockTargetFile (target : String) (env : BlockTargetEnv) :
    Option GrpcError × List OsAction :=
  match ensureMountPoint env.parentDir env.empParent with
  | ((_, some e), acts) =>
    (some ⟨.internal, s!"could not mount target {env.parentDir}: {e}"⟩, acts)
  | ((_, none), acts) =>
    match env.makeFile with
    | none => (none, acts ++ [OsAction.makeFileAction target])
    | some e =>
      match env.removeTarget with
      | some removeErr =>
        (some ⟨.internal, s!"could not remove mount target {target}: {removeErr}"⟩,
          acts ++ [OsAction.makeFileAction target, OsAction.removeFile target])
      | none =>
        (some ⟨.internal, s!"could not create file {target}: {e}"⟩,
          acts ++ [OsAction.makeFileAction target, OsAction.removeFile target])

/-- The driver's topology key for the zone segment. -/
def topologyKeyStr : String := "topology.disk.csi.azure.com/zone"

/-- consts.WellKnownTopologyKey. -/
def wellKnownTopologyKeyStr : String := "topology.kubernetes.io/zone"

/-- The accessible-topology segments of the NodeGetInfo response. -/
structure Topology where
  segments : List (String × String)
deriving DecidableEq, Repr

/-- Modelled from the spec: azureutils.IsValidAvailabilityZone (code not
under src/) accepts a zone only when it belongs to the known zone set for
the node's region. -/
def isValidAvailabilityZone (knownZones : List String) (zone : String) : Bool :=
  knownZones.contains zone

/-- Environment of the topology portion of one NodeGetInfo call. -/
structure NodeInfoEnv where
  supportZone : Bool
  getNodeInfoFromLabels : Bool
  /-- GetNodeInfoFromLabels: the failure domain read from node labels. -/
  labelsFailureDomain : Except String String
  /-- The platform-appropriate zone query (GetZoneByNodeName or GetZone):
  the failure domain it reports. -/
  zoneQuery : Except String String
  /-- The known zone set for the node's region. -/
  knownZones : List String
deriving Repr

/-- The resolution of the (zone-query failure domain, node-label failure
domain) pair in NodeGetInfo: node labels directly when so configured,
otherwise the platform-appropriate zone query with node-label fallback on
error. -/
def resolveFailureDomain (env : NodeInfoEnv) : Except String (String × String) :=
  if env.getNodeInfoFromLabels then
    match env.labelsFailureDomain with
    | .error e => .error e
    | .ok fd => .ok ("", fd)
  else
    match env.zoneQuery with
    | .ok z => .ok (z, "")
    | .error _ =>
      match env.labelsFailureDomain with
      | .error e => .error e
      | .ok fd => .ok ("", fd)

/-- The `zone.FailureDomain` value after the label fallback assignment (line 366):
the label value when the query value is empty. -/
def effectiveFd (zoneFd labelsFd : String) : String :=
  if zoneFd == "" then labelsFd else zoneFd

/-- The topology portion of NodeGetInfo (lines 341-375): the segment map
starts empty; the resolved failure domain (zone query with node-label
fallback, or node labels directly when so configured) is placed into the
segments only when it validates against the known zone set. -/
def nodeGetInfoTopology (env : NodeInfoEnv) : Except String Topology :=
  if env.supportZone then
    match resolveFailureDomain env with
    | .error e => .error e
    | .ok (zoneFd, labelsFd) =>
      if isValidAvailabilityZone env.knownZones (effectiveFd zoneFd labelsFd) then
        .ok ⟨[(topologyKeyStr, effectiveFd zoneFd labelsFd),
              (wellKnownTopologyKeyStr, effectiveFd zoneFd labelsFd)]⟩
      else .ok ⟨[(topologyKeyStr, "")]⟩
  else .ok ⟨[(topologyKeyStr, "")]⟩

/-- The (fsType, options) pairs of the format-and-mount actions of a
trace. -/
def fmtActionsOf (acts : List OsAction) : List (String × List String) :=
  acts.filterMap fun a =>
    match a with
    | .formatAndMount _ _ fs opts => some (fs, opts)
    | _ => none

theorem fmtActionsOf_append (a b : List OsAction) :
    fmtActionsOf (a ++ b) = fmtActionsOf a ++ fmtActionsOf b := by
  simp [fmtActionsOf]

theorem stagePerfStep_no_fmt (env : StageEnv) (s : String) :
    fmtActionsOf (stagePerfStep env s).2 = [] := by
  unfold stagePerfStep
  repeat' split
  all_goals simp [fmtActionsOf]

theorem stagePerfStep_no_fs (env : StageEnv) (s : String) :
    ∀ a ∈ (stagePerfStep env s).2, a.isFsSemantics = false := by
  unfold stagePerfStep
  repeat' split
  all_goals simp [OsAction.isFsSemantics]

theorem empAfterCheck_no_fmt (t : String) (env : EMPEnv) (notMnt : Bool) :
    fmtActionsOf (empAfterCheck t env notMnt).2 = [] := by
  unfold empAfterCheck
  repeat' split
  all_goals simp [fmtActionsOf]

theorem empListCheck_no_fmt (t : String) (env : EMPEnv) (notMnt : Bool) :
    fmtActionsOf (empListCheck t env notMnt).2 = [] := by
  unfold empListCheck
  repeat' split
  all_goals first
    | apply empAfterCheck_no_fmt
    | simp [fmtActionsOf]

theorem ensureMountPoint_no_fmt (t : String) (env : EMPEnv) :
    fmtActionsOf (ensureMountPoint t env).2 = [] := by
  unfold ensureMountPoint
  repeat' split
  all_goals first
    | apply empListCheck_no_fmt
    | simp [fmtActionsOf]

theorem nouuid_mem_collectMountOptions (flags : List String) :
    "nouuid" ∈ collectMountOptions "xfs" flags := by
  simp [collectMountOptions]

/-- Concrete Stage request exercising the volume-context fstype override:
the capability's mount spec leaves the filesystem type empty (so the
platform default applies when options are collected) while the volume
context selects xfs. -/
def c4Req : StageRequest :=
  { volumeId := "vol1"
    stagingTargetPath := "/stage"
    volumeCapability := some ⟨.mnt ⟨"", []⟩⟩
    volumeContext := [("fstype", "xfs")]
    publishContext := [("LUN", "1")] }

/-- Environment for `c4Req`: every collaborator succeeds and the staging
target is fresh (not yet a mount point). -/
def c4Env : StageEnv :=
  { goosWindows := false
    getMaxShares := .ok 1
    isValidVolumeCapabilities := none
    getDevicePath := .ok "/dev/sdc"
    perfOptimizationEnabled := false
    perfAttrs := .ok ()
    diskSupportsPerfOptimization := false
    optimizeDiskPerformance := none
    emp :=
      { goosWindows := false
        isLikelyNotMountPoint := (true, none)
        isCorruptedDir := false
        listMounts := .ok []
        absTarget := .ok "/stage"
        readDir := none
        unmount := none
        makeDir := none }
    formatAndMount := none
    needResizeVolume := .ok false
    resizeVolume := none }

/-- The format-and-mount tail records exactly one format action, carrying
the effective filesystem type and the capability-derived option list. -/
theorem stageFormatStep_fmt (req : StageRequest) (env : StageEnv) (m : MountSpec)
    (lun source0 : String) :
    fmtActionsOf (stageFormatStep req env m lun source0).2 =
      [(stageEffectiveFsType req env m, stageOptions env m)] := by
  unfold stageFormatStep
  repeat' split
  all_goals simp [fmtActionsOf]

/-- Helper for the amended C4 claim, on the locked Stage body: when the
capability's mount spec itself names xfs, every format-and-mount action
carries the duplicate-UUID-ignore option. -/
theorem nodeStageVolumeLocked_xfs_nouuid (req : StageRequest) (env : StageEnv)
    (cap : VolumeCapability) (m : MountSpec)
    (hacc : cap.accessType = .mnt m) (hfs : m.fsType = "xfs") :
    ∀ p ∈ fmtActionsOf (nodeStageVolumeLocked req env cap).2, "nouuid" ∈ p.2 := by
  intro p hp
  unfold nodeStageVolumeLocked at hp
  rcases hl : lookupParam req.publishContext lunKey with _ | lun <;> simp only [hl] at hp
  · simp [fmtActionsOf] at hp
  rcases hd : env.getDevicePath with e | source0 <;> simp only [hd] at hp
  · simp [fmtActionsOf] at hp
  rcases hps : stagePerfStep env source0 with ⟨perfErr, perfActs⟩
  simp only [hps] at hp
  have hperf : fmtActionsOf perfActs = [] := by
    have h := stagePerfStep_no_fmt env source0
    rw [hps] at h
    exact h
  rcases perfErr with _ | e <;> simp only [hacc] at hp
  case some => simp [hperf] at hp
  rcases hemp : ensureMountPoint req.stagingTargetPath env.emp with ⟨⟨isMnt, mntErr⟩, empActs⟩
  simp only [hemp] at hp
  have hempf : fmtActionsOf empActs = [] := by
    have h := ensureMountPoint_no_fmt req.stagingTargetPath env.emp
    rw [hemp] at h
    exact h
  rcases mntErr with _ | e
  · rcases isMnt with _ | _ <;> simp only [Bool.false_eq_true, if_true, if_false] at hp
    · rcases hfmt : stageFormatStep req env m lun source0 with ⟨res, fmtActs⟩
      simp only [hfmt] at hp
      have hf : fmtActionsOf fmtActs = [(stageEffectiveFsType req env m, stageOptions env m)] := by
        have h := stageFormatStep_fmt req env m lun source0
        rw [hfmt] at h
        exact h
      rw [fmtActionsOf_append, fmtActionsOf_append, hperf, hempf, hf] at hp
      simp at hp
      subst hp
      simp only [stageOptions, stageFsTypeCap, hfs]
      exact nouuid_mem_collectMountOptions m.mountFlags
    · rw [fmtActionsOf_append, hperf, hempf] at hp
      simp at hp
  · simp only [] at hp
    rw [fmtActionsOf_append, hperf, hempf] at hp
    simp at hp

/-- Claim C4 (counterexample): a Stage request whose volume context selects
xfs while the capability mount spec leaves the filesystem type empty
reaches format-and-mount with effective filesystem type xfs but an option
list computed for the platform default, so the duplicate-UUID-ignore
option nouuid is absent — refuting the claim that nouuid is present
whenever the effective filesystem type is xfs, regardless of how xfs was
selected. -/
theorem xfs_nouuid_counterexample :
    fmtActionsOf (nodeStageVolume c4Req c4Env []).2.2 = [("xfs", [])] ∧
    "nouuid" ∉ ((fmtActionsOf (nodeStageVolume c4Req c4Env []).2.2).headD ("", [])).2 := by
  decide

/-- Claim C4 (amended): whenever the filesystem type computed from the
capability mount spec (its fsType when non-empty, else the platform
default) is xfs, every format-and-mount action of Stage carries nouuid in
its option list; xfs selected only via the volume-context attribute does
not add nouuid, because the option list is collected before that
override. -/
theorem xfs_nouuid_amended (req : StageRequest) (env : StageEnv) (locks : Locks)
    (cap : VolumeCapability) (m : MountSpec)
    (hcap : req.volumeCapability = some cap) (hacc : cap.accessType = .mnt m)
    (hfs : m.fsType = "xfs") :
    ∀ p ∈ fmtActionsOf (nodeStageVolume req env locks).2.2, "nouuid" ∈ p.2 := by
  intro p hp
  unfold nodeStageVolume at hp
  simp only [hcap] at hp
  split at hp
  · simp [fmtActionsOf] at hp
  split at hp
  · simp [fmtActionsOf] at hp
  rcases hms : env.getMaxShares with e | n <;> simp only [hms] at hp
  · simp [fmtActionsOf] at hp
  rcases hvc : env.isValidVolumeCapabilities with _ | e <;> simp only [hvc] at hp
  case some => simp [fmtActionsOf] at hp
  rcases ht : tryAcquire locks req.volumeId with ⟨acq, locks1⟩
  simp only [ht] at hp
  rcases acq with _ | _ <;> simp only [Bool.false_eq_true, if_true, if_false] at hp
  · simp [fmtActionsOf] at hp
  · rcases hlk : nodeStageVolumeLocked req env cap with ⟨res, acts⟩
    simp only [hlk] at hp
    have h := nodeStageVolumeLocked_xfs_nouuid req env cap m hacc hfs p
    rw [hlk] at h
    exact h hp

/-- Concrete Stage request whose capability mount spec itself selects
xfs. -/
def c4wReq : StageRequest :=
  { volumeId := "vol1"
    stagingTargetPath := "/stage"
    volumeCapability := some ⟨.mnt ⟨"xfs", []⟩⟩
    volumeContext := []
    publishContext := [("LUN", "1")] }

theorem xfs_nouuid_amended_witness :
    "nouuid" ∈ ((fmtActionsOf (nodeStageVolume c4wReq c4Env []).2.2).headD ("", [])).2 :=
  xfs_nouuid_amended c4wReq c4Env [] ⟨.mnt ⟨"xfs", []⟩⟩ ⟨"xfs", []⟩ rfl rfl rfl
    ((fmtActionsOf (nodeStageVolume c4wReq c4Env []).2.2).headD ("", [])) (by decide)

/-- A healthy ensureMountPoint environment for a fresh directory. -/
def freshEmpEnv (abs : String) : EMPEnv :=
  { goosWindows := false
    isLikelyNotMountPoint := (true, none)
    isCorruptedDir := false
    listMounts := .ok []
    absTarget := .ok abs
    readDir := none
    unmount := none
    makeDir := none }

/-- Block-target environment in which file creation fails and the cleanup
removal fails too. -/
def c8Env : BlockTargetEnv :=
  { parentDir := "/publish"
    empParent := freshEmpEnv "/publish"
    makeFile := some "no space left on device"
    removeTarget := some "permission denied" }

/-- Claim C8 (counterexample): when the block-target file creation fails
and the cleanup removal of the partial target also fails, the error
surfaced to the caller is the removal error, not the original creation
error — refuting the claim that the original creation error is surfaced
for every input where creation fails (and the removal is not best-effort:
its failure replaces the surfaced error). -/
theorem block_target_error_counterexample :
    (ensureBlockTargetFile "/t/vol" c8Env).1 =
      some ⟨.internal, "could not remove mount target /t/vol: permission denied"⟩ ∧
    (ensureBlockTargetFile "/t/vol" c8Env).1 ≠
      some ⟨.internal, "could not create file /t/vol: no space left on device"⟩ := by
  decide

/-- Claim C8 (amended): in Publish with raw-block access, the target is
created as a file node; on creation failure its removal is attempted, and
when the removal succeeds the original creation error is surfaced — but
when the removal itself fails, the removal error is surfaced in place of
the creation error. -/
theorem block_target_error_amended (target : String) (env : BlockTargetEnv) (e : String)
    (hemp : (ensureMountPoint env.parentDir env.empParent).1.2 = none)
    (hmk : env.makeFile = some e) :
    (env.removeTarget = none →
       (ensureBlockTargetFile target env).1 =
         some ⟨.internal, s!"could not create file {target}: {e}"⟩) ∧
    (∀ r, env.removeTarget = some r →
       (ensureBlockTargetFile target env).1 =
         some ⟨.internal, s!"could not remove mount target {target}: {r}"⟩) ∧
    OsAction.removeFile target ∈ (ensureBlockTargetFile target env).2 := by
  rcases hr : ensureMountPoint env.parentDir env.empParent with ⟨⟨b, errOpt⟩, acts⟩
  rw [hr] at hemp
  simp only at hemp
  subst hemp
  refine ⟨?_, ?_, ?_⟩
  · intro hrm
    unfold ensureBlockTargetFile
    simp only [hr, hmk, hrm]
  · intro r hrm
    unfold ensureBlockTargetFile
    simp only [hr, hmk, hrm]
  · unfold ensureBlockTargetFile
    simp only [hr, hmk]
    rcases env.removeTarget with _ | r <;> simp

/-- Block-target environment in which file creation fails but the cleanup
removal succeeds. -/
def c8wEnv : BlockTargetEnv :=
  { parentDir := "/publish"
    empParent := freshEmpEnv "/publish"
    makeFile := some "no space left on device"
    removeTarget := none }

theorem block_target_error_amended_witness :
    (ensureBlockTargetFile "/t/vol" c8wEnv).1 =
      some ⟨.internal, "could not create file /t/vol: no space left on device"⟩ :=
  (block_target_error_amended "/t/vol" c8wEnv "no space left on device"
    (by decide) (by decide)).1 rfl

/-- Claim C9: in the NodeGetInfo topology, every zone value placed into a
segment either is the empty placeholder or validates against the known
zone set; and whenever the resolved zone fails validation, the topology is
returned with its zone segment left empty. -/
theorem nodeGetInfo_zone_validation (env env2 : NodeInfoEnv) (z : String)
    (hsz : env2.supportZone = true) (hlb : env2.getNodeInfoFromLabels = false)
    (hq : env2.zoneQuery = .ok z) (hz : z ≠ "")
    (hinvalid : isValidAvailabilityZone env2.knownZones z = false) :
    (∀ t, nodeGetInfoTopology env = .ok t →
       ∀ kv ∈ t.segments, kv.2 = "" ∨ isValidAvailabilityZone env.knownZones kv.2 = true) ∧
    nodeGetInfoTopology env2 = .ok ⟨[(topologyKeyStr, "")]⟩ := by
  constructor
  · intro t ht kv hkv
    unfold nodeGetInfoTopology at ht
    split at ht
    · rcases hres : resolveFailureDomain env with e | ⟨zoneFd, labelsFd⟩ <;>
        simp only [hres] at ht
      · cases ht
      · split at ht
        · rename_i hvalid
          cases ht
          simp at hkv
          rcases hkv with rfl | rfl
          · right
            exact hvalid
          · right
            exact hvalid
        · cases ht
          simp at hkv
          subst hkv
          left
          rfl
    · cases ht
      simp at hkv
      subst hkv
      left
      rfl
  · unfold nodeGetInfoTopology resolveFailureDomain
    simp only [hsz, hlb, hq, if_true, Bool.false_eq_true, if_false]
    have hfd : effectiveFd z "" = z := by
      unfold effectiveFd
      simp [hz]
    rw [hfd, hinvalid]
    simp

/-- Environment resolving an unrecognized zone for the region. -/
def c9Env : NodeInfoEnv :=
  { supportZone := true
    getNodeInfoFromLabels := false
    labelsFailureDomain := .ok ""
    zoneQuery := .ok "westus2-9"
    knownZones := ["westus2-1", "westus2-2", "westus2-3"] }

theorem nodeGetInfo_zone_validation_witness :
    nodeGetInfoTopology c9Env = .ok ⟨[(topologyKeyStr, "")]⟩ :=
  (nodeGetInfo_zone_validation c9Env c9Env "westus2-9" rfl rfl rfl (by decide) (by decide)).2

/-- A poller whose condition is false at every iteration runs out its full
fuel and reports the timeout. -/
theorem pollRounds_timeout (cond : Nat → Except String Bool)
    (h : ∀ i, cond i = .ok false) :
    ∀ j fuel, pollRounds cond j fuel = .error pollTimeoutMsg := by
  intro j fuel
  induction fuel generalizing j with
  | zero => rfl
  | succ n ih =>
    rw [pollRounds, h j]
    exact ih (j + 1)

/-- A poller whose condition first turns true at iteration `k` inside the
fuel bound succeeds at exactly iteration `k`. -/
theorem pollRounds_success (cond : Nat → Except String Bool) (k : Nat)
    (hbefore : ∀ i, i < k → cond i = .ok false) (hk : cond k = .ok true) :
    ∀ fuel j, j ≤ k → k < j + fuel → pollRounds cond j fuel = .ok k := by
  intro fuel
  induction fuel with
  | zero =>
    intro j hjk hlt
    omega
  | succ n ih =>
    intro j hjk hlt
    rcases Nat.eq_or_lt_of_le hjk with rfl | hjlt
    · rw [pollRounds, hk]
    · rw [pollRounds, hbefore j hjlt]
      exact ih (j + 1) hjlt (by omega)

/-- Claim C6: device resolution polls at a 1-second interval under a
2-minute deadline; with a matching device first reported at iteration
`k` (elapsed k seconds) for any k below the 120-attempt deadline, the
resolved path of that first successful iteration is returned; and when no
matching device ever appears (and the probe itself never errors), the
sole outcome is the poller's timeout failure, reached only after all 120
one-second rounds are exhausted. -/
theorem device_poll_first_success_and_timeout (env1 env2 : DeviceEnv)
    (lunStr : String) (lun k : Nat) (p : String)
    (hlun : parseNonNegInt lunStr = some lun)
    (h1before : ∀ i, i < k → env1.findDiskByLun i = .ok "")
    (h1k : env1.findDiskByLun k = .ok p) (hp : p ≠ "") (hk : k < 120)
    (h2 : ∀ i, env2.findDiskByLun i = .ok "") :
    getDevicePathWithLUN env1 lunStr = .ok p ∧
    getDevicePathWithLUN env2 lunStr = .error pollTimeoutMsg := by
  constructor
  · unfold getDevicePathWithLUN getDiskLUN
    rw [hlun]
    have hpoll : pollImmediateSec 1 120 (devCond env1 lun) = .ok k := by
      unfold pollImmediateSec
      apply pollRounds_success
      · intro i hi
        unfold devCond
        rw [h1before i hi]
        rfl
      · unfold devCond
        rw [h1k]
        simp [hp]
      · omega
      · omega
    simp only [hpoll, h1k]
    simp [hp]
  · unfold getDevicePathWithLUN getDiskLUN
    rw [hlun]
    have hpoll : pollImmediateSec 1 120 (devCond env2 lun) = .error pollTimeoutMsg := by
      unfold pollImmediateSec
      apply pollRounds_timeout
      intro i
      unfold devCond
      rw [h2 i]
      rfl
    simp only [hpoll]

/-- A device for attachment slot 3 that appears five seconds after the
poll starts. -/
def c6Env1 : DeviceEnv :=
  ⟨fun i => .ok (if i < 5 then "" else "/dev/disk/azure/scsi1/lun3")⟩

/-- A device that never appears. -/
def c6Env2 : DeviceEnv :=
  ⟨fun _ => .ok ""⟩

theorem device_poll_witness :
    getDevicePathWithLUN c6Env1 "3" = .ok "/dev/disk/azure/scsi1/lun3" ∧
    getDevicePathWithLUN c6Env2 "3" = .error pollTimeoutMsg :=
  device_poll_first_success_and_timeout c6Env1 c6Env2 "3" 3 5 "/dev/disk/azure/scsi1/lun3"
    (by decide) (fun i hi => by simp [c6Env1, hi]) (by simp [c6Env1]) (by decide) (by decide)
    (fun i => rfl)

/-- Reaching the locked Expand body: for a valid non-block request with a
free lock, NodeExpandVolume returns the locked body's result with the lock
released (the lock table is restored). -/
theorem nodeExpandVolume_locked_path (req : ExpandRequest) (env : ExpandEnv) (locks : Locks)
    (b : Bool) (res : Except GrpcError ExpandResponse) (acts : List OsAction)
    (hid : req.volumeId ≠ "") (hpath : req.volumePath ≠ "")
    (hpd : env.pathIsDevice = .ok b) (hnb : expandIsBlock req b = false)
    (hfree : locks.contains req.volumeId = false)
    (hlk : nodeExpandVolumeLocked req env (roundUpGiB req.requiredBytes) = (res, acts)) :
    nodeExpandVolume req env locks = (res, locks, acts) := by
  have hmem : req.volumeId ∉ locks := by
    simpa using hfree
  unfold nodeExpandVolume tryAcquire
  simp [hid, hpath, hpd, hnb, hmem, hlk, release, List.erase_cons_head]

/-- Case analysis of the locked Expand body after a successful measurement:
a measured size meeting the rounded request yields success with the
measured bytes (even when the resize step errored); an insufficient
measured size surfaces the remembered resize error when one exists, else
the generic mismatch failure. -/
theorem nodeExpandVolumeLocked_cases (req : ExpandRequest) (env : ExpandEnv)
    (requestGiB : Int) (dp : String) (g : Int)
    (hdp : env.getDevicePathWithMountPath = .ok dp)
    (hw : env.windowsHostProcess = false)
    (hg : env.getBlockSizeBytes dp = .ok g) :
    (¬ roundUpGiB g < requestGiB →
       (nodeExpandVolumeLocked req env requestGiB).1 = .ok ⟨g⟩) ∧
    (∀ e, roundUpGiB g < requestGiB → env.resizeVolume = some e →
       (nodeExpandVolumeLocked req env requestGiB).1 =
         .error ⟨.internal, expandResizeErrMsg req.volumeId dp e⟩) ∧
    (roundUpGiB g < requestGiB → env.resizeVolume = none →
       (nodeExpandVolumeLocked req env requestGiB).1 =
         .error ⟨.internal, expandMismatchMsg requestGiB (roundUpGiB g)⟩) := by
  have hsp : expandSizePath req env dp = dp := by
    unfold expandSizePath
    rw [hw]
    simp
  unfold nodeExpandVolumeLocked
  simp only [hdp, hsp, hg]
  refine ⟨?_, ?_, ?_⟩
  · intro hge
    rw [if_neg hge]
  · intro e hlt hrz
    rw [if_pos hlt]
    simp only [expandRetErr, hrz]
  · intro hlt hrz
    rw [if_pos hlt]
    simp only [expandRetErr, hrz]

/-- Claim C2: in Expand's filesystem path, when the post-resize measured
size rounded up to GiB already satisfies the rounded request, the
operation succeeds carrying the measured size in bytes even when the
resize step errored; when it is insufficient, the earlier resize error is
surfaced when one exists, else the generic internal mismatch failure. -/
theorem expand_resize_error_suppression (req : ExpandRequest) (env : ExpandEnv)
    (locks : Locks) (b : Bool) (dp : String) (g : Int)
    (hid : req.volumeId ≠ "") (hpath : req.volumePath ≠ "")
    (hpd : env.pathIsDevice = .ok b) (hnb : expandIsBlock req b = false)
    (hfree : locks.contains req.volumeId = false)
    (hdp : env.getDevicePathWithMountPath = .ok dp)
    (hw : env.windowsHostProcess = false)
    (hg : env.getBlockSizeBytes dp = .ok g) :
    (¬ roundUpGiB g < roundUpGiB req.requiredBytes →
       (nodeExpandVolume req env locks).1 = .ok ⟨g⟩) ∧
    (∀ e, roundUpGiB g < roundUpGiB req.requiredBytes → env.resizeVolume = some e →
       (nodeExpandVolume req env locks).1 =
         .error ⟨.internal, expandResizeErrMsg req.volumeId dp e⟩) ∧
    (roundUpGiB g < roundUpGiB req.requiredBytes → env.resizeVolume = none →
       (nodeExpandVolume req env locks).1 =
         .error ⟨.internal, expandMismatchMsg (roundUpGiB req.requiredBytes) (roundUpGiB g)⟩) := by
  rcases hlk : nodeExpandVolumeLocked req env (roundUpGiB req.requiredBytes) with ⟨res, acts⟩
  have hred := nodeExpandVolume_locked_path req env locks b res acts hid hpath hpd hnb hfree hlk
  have hc := nodeExpandVolumeLocked_cases req env (roundUpGiB req.requiredBytes) dp g hdp hw hg
  rw [hlk] at hc
  refine ⟨?_, ?_, ?_⟩
  · intro h
    rw [hred]
    exact hc.1 h
  · intro e h hrz
    rw [hred]
    exact hc.2.1 e h hrz
  · intro h hrz
    rw [hred]
    exact hc.2.2 h hrz

/-- Expand request for exactly 5 GiB. -/
def c2Req : ExpandRequest :=
  { volumeId := "vol1"
    requiredBytes := 5368709120
    volumePath := "/mnt/vol"
    volumeCapability := none }

/-- Expand environment in which the resize step fails but the measured
post-resize size already equals the 5 GiB request. -/
def c2Env : ExpandEnv :=
  { pathIsDevice := .ok false
    enableDiskOnlineResize := false
    getDevicePathWithMountPath := .ok "/dev/sdc"
    resizeVolume := some "resize2fs: device busy"
    windowsHostProcess := false
    getBlockSizeBytes := fun _ => .ok 5368709120 }

theorem expand_resize_error_suppression_witness :
    (nodeExpandVolume c2Req c2Env []).1 = .ok ⟨5368709120⟩ :=
  (expand_resize_error_suppression c2Req c2Env [] false "/dev/sdc" 5368709120
    (by decide) (by decide) rfl rfl rfl rfl rfl rfl).1 (by decide)

/-- roundUpGiB is exact ceiling division to gibibyte units on non-negative
sizes: the rounded value covers the size and is the least such multiple. -/
theorem roundUpGiB_ceil (z : Int) (hz : 0 ≤ z) :
    z ≤ giB * roundUpGiB z ∧ giB * roundUpGiB z < z + giB := by
  unfold roundUpGiB giB
  rw [Int.tdiv_eq_ediv hz (by norm_num)]
  have h1 : (1073741824 : Int) * (z / 1073741824) + z % 1073741824 = z :=
    Int.ediv_add_emod z 1073741824
  have h2 : 0 ≤ z % 1073741824 := Int.emod_nonneg z (by norm_num)
  have h3 : z % 1073741824 < 1073741824 := Int.emod_lt_of_pos z (by norm_num)
  split
  all_goals constructor
  all_goals omega

/-- Claim C7: Expand rounds the required bytes up to whole gibibytes
(exact ceiling on non-negative sizes, never rounding down; in particular
4,500,000,000 bytes becomes a 5 GiB target), and a measured post-resize
capacity whose rounded value meets or exceeds the rounded request is a
success carrying the measured bytes, never a mismatch failure. -/
theorem expand_roundup_gib (z : Int) (hz : 0 ≤ z)
    (req : ExpandRequest) (env : ExpandEnv) (locks : Locks) (b : Bool) (dp : String) (g : Int)
    (hid : req.volumeId ≠ "") (hpath : req.volumePath ≠ "")
    (hpd : env.pathIsDevice = .ok b) (hnb : expandIsBlock req b = false)
    (hfree : locks.contains req.volumeId = false)
    (hdp : env.getDevicePathWithMountPath = .ok dp)
    (hw : env.windowsHostProcess = false)
    (hg : env.getBlockSizeBytes dp = .ok g)
    (hge : ¬ roundUpGiB g < roundUpGiB req.requiredBytes) :
    roundUpGiB 4500000000 = 5 ∧
    (z ≤ giB * roundUpGiB z ∧ giB * roundUpGiB z < z + giB) ∧
    (nodeExpandVolume req env locks).1 = .ok ⟨g⟩ := by
  refine ⟨by decide, roundUpGiB_ceil z hz, ?_⟩
  rcases hlk : nodeExpandVolumeLocked req env (roundUpGiB req.requiredBytes) with ⟨res, acts⟩
  have hred := nodeExpandVolume_locked_path req env locks b res acts hid hpath hpd hnb hfree hlk
  have hc := nodeExpandVolumeLocked_cases req env (roundUpGiB req.requiredBytes) dp g hdp hw hg
  rw [hlk] at hc
  rw [hred]
  exact hc.1 hge

/-- Expand request for 4,500,000,000 bytes (a 5 GiB rounded target). -/
def c7Req : ExpandRequest :=
  { volumeId := "vol2"
    requiredBytes := 4500000000
    volumePath := "/mnt/vol2"
    volumeCapability := none }

/-- Expand environment measuring 6 GiB after a successful resize: the
measured capacity exceeds the rounded request. -/
def c7Env : ExpandEnv :=
  { pathIsDevice := .ok false
    enableDiskOnlineResize := false
    getDevicePathWithMountPath := .ok "/dev/sdd"
    resizeVolume := none
    windowsHostProcess := false
    getBlockSizeBytes := fun _ => .ok 6442450944 }

theorem expand_roundup_gib_witness :
    roundUpGiB 4500000000 = 5 ∧
    ((4500000000 : Int) ≤ giB * roundUpGiB 4500000000 ∧
      giB * roundUpGiB 4500000000 < 4500000000 + giB) ∧
    (nodeExpandVolume c7Req c7Env []).1 = .ok ⟨6442450944⟩ :=
  expand_roundup_gib 4500000000 (by decide) c7Req c7Env [] false "/dev/sdd" 6442450944
    (by decide) (by decide) rfl rfl rfl rfl rfl rfl (by decide)

/-- Reaching the locked Stage body: for a valid request with a free lock,
NodeStageVolume returns the locked body's result with the lock released
(the lock table is restored). -/
theorem nodeStageVolume_locked_path (req : StageRequest) (env : StageEnv) (locks : Locks)
    (cap : VolumeCapability) (ns : Nat)
    (res : Except GrpcError Unit) (acts : List OsAction)
    (h1 : req.volumeId ≠ "") (h2 : req.stagingTargetPath ≠ "")
    (h3 : req.volumeCapability = some cap)
    (h4 : env.getMaxShares = .ok ns) (h5 : env.isValidVolumeCapabilities = none)
    (hfree : locks.contains req.volumeId = false)
    (hlk : nodeStageVolumeLocked req env cap = (res, acts)) :
    nodeStageVolume req env locks = (res, locks, acts) := by
  have hmem : req.volumeId ∉ locks := by
    simpa using hfree
  unfold nodeStageVolume tryAcquire
  simp [h1, h2, h3, h4, h5, hmem, hlk, release, List.erase_cons_head]

/-- A held per-volume lock aborts a valid Stage request before any OS
mutation, leaving the lock table unchanged. -/
theorem nodeStageVolume_aborted (req : StageRequest) (env : StageEnv) (locks : Locks)
    (cap : VolumeCapability) (ns : Nat)
    (h1 : req.volumeId ≠ "") (h2 : req.stagingTargetPath ≠ "")
    (h3 : req.volumeCapability = some cap)
    (h4 : env.getMaxShares = .ok ns) (h5 : env.isValidVolumeCapabilities = none)
    (hheld : locks.contains req.volumeId = true) :
    nodeStageVolume req env locks =
      (.error ⟨.aborted, volumeOperationAlreadyExists req.volumeId⟩, locks, []) := by
  have hmem : req.volumeId ∈ locks := by
    simpa using hheld
  unfold nodeStageVolume tryAcquire
  simp [h1, h2, h3, h4, h5, hmem]

/-- Claim C1: per-volume lock serialization of the lifecycle-mutating
operations. For valid Stage, Unstage and (filesystem-path) Expand
requests: when the volume's lock is already held the call fails
immediately with the distinct operation-already-exists Aborted error, the
lock table is unchanged and no OS mutation is performed (empty trace); and
when the lock is free, the operation acquires and — on every exit path —
releases it, restoring the lock table, so no permanent lock leak is
possible. -/
theorem volume_lock_serialization
    (sreq : StageRequest) (senv : StageEnv) (scap : VolumeCapability) (ns : Nat)
    (ureq : UnstageRequest) (uenv : UnstageEnv)
    (ereq : ExpandRequest) (eenv : ExpandEnv) (b : Bool)
    (locksHeldS locksFreeS locksHeldU locksFreeU locksHeldE locksFreeE : Locks)
    (hs1 : sreq.volumeId ≠ "") (hs2 : sreq.stagingTargetPath ≠ "")
    (hs3 : sreq.volumeCapability = some scap)
    (hs4 : senv.getMaxShares = .ok ns) (hs5 : senv.isValidVolumeCapabilities = none)
    (hsHeld : locksHeldS.contains sreq.volumeId = true)
    (hsFree : locksFreeS.contains sreq.volumeId = false)
    (hu1 : ureq.volumeId ≠ "") (hu2 : ureq.stagingTargetPath ≠ "")
    (huHeld : locksHeldU.contains ureq.volumeId = true)
    (huFree : locksFreeU.contains ureq.volumeId = false)
    (he1 : ereq.volumeId ≠ "") (he2 : ereq.volumePath ≠ "")
    (he3 : eenv.pathIsDevice = .ok b) (he4 : expandIsBlock ereq b = false)
    (heHeld : locksHeldE.contains ereq.volumeId = true)
    (heFree : locksFreeE.contains ereq.volumeId = false) :
    nodeStageVolume sreq senv locksHeldS =
      (.error ⟨.aborted, volumeOperationAlreadyExists sreq.volumeId⟩, locksHeldS, []) ∧
    nodeUnstageVolume ureq uenv locksHeldU =
      (.error ⟨.aborted, volumeOperationAlreadyExists ureq.volumeId⟩, locksHeldU, []) ∧
    nodeExpandVolume ereq eenv locksHeldE =
      (.error ⟨.aborted, volumeOperationAlreadyExists ereq.volumeId⟩, locksHeldE, []) ∧
    (nodeStageVolume sreq senv locksFreeS).2.1 = locksFreeS ∧
    (nodeUnstageVolume ureq uenv locksFreeU).2.1 = locksFreeU ∧
    (nodeExpandVolume ereq eenv locksFreeE).2.1 = locksFreeE := by
  refine ⟨?_, ?_, ?_, ?_, ?_, ?_⟩
  · exact nodeStageVolume_aborted sreq senv locksHeldS scap ns hs1 hs2 hs3 hs4 hs5 hsHeld
  · have hmem : ureq.volumeId ∈ locksHeldU := by
      simpa using huHeld
    unfold nodeUnstageVolume tryAcquire
    simp [hu1, hu2, hmem]
  · have hmem : ereq.volumeId ∈ locksHeldE := by
      simpa using heHeld
    unfold nodeExpandVolume tryAcquire
    simp [he1, he2, he3, he4, hmem]
  · rcases hlk : nodeStageVolumeLocked sreq senv scap with ⟨res, acts⟩
    rw [nodeStageVolume_locked_path sreq senv locksFreeS scap ns res acts
      hs1 hs2 hs3 hs4 hs5 hsFree hlk]
  · have hmem : ureq.volumeId ∉ locksFreeU := by
      simpa using huFree
    unfold nodeUnstageVolume tryAcquire
    rcases hc : uenv.cleanupMountPoint with _ | e <;>
      simp [hu1, hu2, hmem, hc, release, List.erase_cons_head]
  · rcases hlk : nodeExpandVolumeLocked ereq eenv (roundUpGiB ereq.requiredBytes) with ⟨res, acts⟩
    rw [nodeExpandVolume_locked_path ereq eenv locksFreeE b res acts
      he1 he2 he3 he4 heFree hlk]

/-- A valid Unstage request for the locked-volume scenarios. -/
def c1UReq : UnstageRequest :=
  { volumeId := "vol1", stagingTargetPath := "/stage" }

/-- An Unstage environment whose cleanup succeeds. -/
def c1UEnv : UnstageEnv :=
  { cleanupMountPoint := none }

theorem volume_lock_serialization_witness :
    nodeStageVolume c4Req c4Env ["vol1"] =
      (.error ⟨.aborted, volumeOperationAlreadyExists "vol1"⟩, ["vol1"], []) ∧
    nodeUnstageVolume c1UReq c1UEnv ["vol1"] =
      (.error ⟨.aborted, volumeOperationAlreadyExists "vol1"⟩, ["vol1"], []) ∧
    nodeExpandVolume c2Req c2Env ["vol1"] =
      (.error ⟨.aborted, volumeOperationAlreadyExists "vol1"⟩, ["vol1"], []) ∧
    (nodeStageVolume c4Req c4Env []).2.1 = [] ∧
    (nodeUnstageVolume c1UReq c1UEnv []).2.1 = [] ∧
    (nodeExpandVolume c2Req c2Env []).2.1 = [] :=
  volume_lock_serialization c4Req c4Env ⟨.mnt ⟨"", []⟩⟩ 1 c1UReq c1UEnv c2Req c2Env false
    ["vol1"] [] ["vol1"] [] ["vol1"] []
    (by decide) (by decide) rfl rfl rfl (by decide) (by decide)
    (by decide) (by decide) (by decide) (by decide)
    (by decide) (by decide) rfl rfl (by decide) (by decide)

/-- Claim C5: a Stage request with raw-block access type that reaches the
block short-circuit responds success with the lock released, and its trace
contains no filesystem semantics — no mount-point reconciliation mutation,
no format, no mount, no resize. -/
theorem stage_block_no_fs_semantics (req : StageRequest) (env : StageEnv) (locks : Locks)
    (cap : VolumeCapability) (ns : Nat) (l p : String)
    (h1 : req.volumeId ≠ "") (h2 : req.stagingTargetPath ≠ "")
    (h3 : req.volumeCapability = some cap)
    (h4 : env.getMaxShares = .ok ns) (h5 : env.isValidVolumeCapabilities = none)
    (hacc : cap.accessType = .block)
    (hfree : locks.contains req.volumeId = false)
    (hlun : lookupParam req.publishContext lunKey = some l)
    (hdev : env.getDevicePath = .ok p)
    (hperf : (stagePerfStep env p).1 = none) :
    (nodeStageVolume req env locks).1 = .ok () ∧
    (nodeStageVolume req env locks).2.1 = locks ∧
    ∀ a ∈ (nodeStageVolume req env locks).2.2, a.isFsSemantics = false := by
  rcases hps : stagePerfStep env p with ⟨pe, pacts⟩
  have hpe : pe = none := by
    rw [hps] at hperf
    exact hperf
  subst hpe
  have hlk : nodeStageVolumeLocked req env cap = (.ok (), pacts) := by
    unfold nodeStageVolumeLocked
    simp only [hlun, hdev, hps, hacc]
  have hred := nodeStageVolume_locked_path req env locks cap ns (.ok ()) pacts
    h1 h2 h3 h4 h5 hfree hlk
  rw [hred]
  refine ⟨rfl, rfl, ?_⟩
  intro a ha
  have h := stagePerfStep_no_fs env p
  rw [hps] at h
  exact h a ha

/-- A valid Stage request with raw-block access. -/
def c5Req : StageRequest :=
  { volumeId := "vol1"
    stagingTargetPath := "/stage"
    volumeCapability := some ⟨.block⟩
    volumeContext := []
    publishContext := [("LUN", "2")] }

theorem stage_block_no_fs_semantics_witness :
    (nodeStageVolume c5Req c4Env []).1 = .ok () :=
  (stage_block_no_fs_semantics c5Req c4Env [] ⟨.block⟩ 1 "2" "/dev/sdc"
    (by decide) (by decide) rfl rfl rfl rfl (by decide) rfl rfl rfl).1

/-- Claim C10: a Stage request that is valid in every respect except a
publish context lacking the LUN entry fails with the invalid-argument
"lun not provided" error; the check sits after the per-volume lock: a held
lock masks it with the Aborted error, and in the missing-LUN failure the
acquired lock is released (lock table restored). -/
theorem stage_missing_lun (req : StageRequest) (env : StageEnv)
    (cap : VolumeCapability) (ns : Nat) (locksHeld locksFree : Locks)
    (h1 : req.volumeId ≠ "") (h2 : req.stagingTargetPath ≠ "")
    (h3 : req.volumeCapability = some cap)
    (h4 : env.getMaxShares = .ok ns) (h5 : env.isValidVolumeCapabilities = none)
    (hlun : lookupParam req.publishContext lunKey = none)
    (hheld : locksHeld.contains req.volumeId = true)
    (hfree : locksFree.contains req.volumeId = false) :
    nodeStageVolume req env locksHeld =
      (.error ⟨.aborted, volumeOperationAlreadyExists req.volumeId⟩, locksHeld, []) ∧
    nodeStageVolume req env locksFree =
      (.error ⟨.invalidArgument, "lun not provided"⟩, locksFree, []) := by
  constructor
  · exact nodeStageVolume_aborted req env locksHeld cap ns h1 h2 h3 h4 h5 hheld
  · have hlk : nodeStageVolumeLocked req env cap =
        (.error ⟨.invalidArgument, "lun not provided"⟩, []) := by
      unfold nodeStageVolumeLocked
      simp only [hlun]
    exact nodeStageVolume_locked_path req env locksFree cap ns _ _ h1 h2 h3 h4 h5 hfree hlk

/-- A Stage request valid in every respect except its empty publish
context. -/
def c10Req : StageRequest :=
  { volumeId := "vol1"
    stagingTargetPath := "/stage"
    volumeCapability := some ⟨.mnt ⟨"", []⟩⟩
    volumeContext := []
    publishContext := [] }

theorem stage_missing_lun_witness :
    nodeStageVolume c10Req c4Env [] =
      (.error ⟨.invalidArgument, "lun not provided"⟩, [], []) :=
  (stage_missing_lun c10Req c4Env ⟨.mnt ⟨"", []⟩⟩ 1 ["vol1"] []
    (by decide) (by decide) rfl rfl rfl rfl (by decide) (by decide)).2

/-- Claim C3: for a target determined to be mounted whose directory
enumeration fails (a broken mount link), ensureMountPoint unmounts the
target and reports "not mounted" (first component false); consequently a
subsequent Stage of that target — whose reconciliation now finds it not
mounted — does not return the already-mounted short-circuit but proceeds
to a fresh format-and-mount and succeeds. -/
theorem ensureMountPoint_broken_link_remount
    (target : String) (env1 : EMPEnv) (rdErr : String) (ms : List String) (ta : String)
    (h11 : env1.isLikelyNotMountPoint = (false, none))
    (h12 : env1.goosWindows = false)
    (h13 : env1.listMounts = .ok ms) (h14 : env1.absTarget = .ok ta)
    (h15 : env1.readDir = some rdErr) (h16 : env1.unmount = none)
    (req : StageRequest) (env2 : StageEnv) (locks : Locks)
    (cap : VolumeCapability) (m : MountSpec) (ns : Nat) (l p : String)
    (empActs : List OsAction)
    (h1 : req.volumeId ≠ "") (h2 : req.stagingTargetPath ≠ "")
    (h3 : req.volumeCapability = some cap) (hacc : cap.accessType = .mnt m)
    (h4 : env2.getMaxShares = .ok ns) (h5 : env2.isValidVolumeCapabilities = none)
    (hfree : locks.contains req.volumeId = false)
    (hlun : lookupParam req.publishContext lunKey = some l)
    (hdev : env2.getDevicePath = .ok p)
    (hperf : (stagePerfStep env2 p).1 = none)
    (hemp2 : ensureMountPoint req.stagingTargetPath env2.emp = ((false, none), empActs))
    (hfm : env2.formatAndMount = none)
    (hnr : stageNeedResize req env2 = false) :
    ensureMountPoint target env1 = ((false, some rdErr), [OsAction.unmountFs target]) ∧
    (nodeStageVolume req env2 locks).1 = .ok () ∧
    fmtActionsOf (nodeStageVolume req env2 locks).2.2 =
      [(stageEffectiveFsType req env2 m, stageOptions env2 m)] := by
  have hbroken : ensureMountPoint target env1 =
      ((false, some rdErr), [OsAction.unmountFs target]) := by
    unfold ensureMountPoint
    simp only [h11]
    unfold empListCheck
    simp only [h12, h13, h14]
    unfold empAfterCheck
    simp only [h15, h16]
    simp
  rcases hps : stagePerfStep env2 p with ⟨pe, pacts⟩
  have hpe : pe = none := by
    rw [hps] at hperf
    exact hperf
  subst hpe
  have hsf : stageFormatStep req env2 m l p =
      (.ok (), [OsAction.formatAndMount (stageSource req p) req.stagingTargetPath
        (stageEffectiveFsType req env2 m) (stageOptions env2 m)]) := by
    unfold stageFormatStep
    simp only [hfm, hnr]
    simp
  have hlk : nodeStageVolumeLocked req env2 cap =
      (.ok (), pacts ++ empActs ++ [OsAction.formatAndMount (stageSource req p)
        req.stagingTargetPath (stageEffectiveFsType req env2 m) (stageOptions env2 m)]) := by
    unfold nodeStageVolumeLocked
    simp only [hlun, hdev, hps, hacc, hemp2, hsf]
    simp
  have hred := nodeStageVolume_locked_path req env2 locks cap ns _ _
    h1 h2 h3 h4 h5 hfree hlk
  rw [hred]
  refine ⟨hbroken, rfl, ?_⟩
  have hpf : fmtActionsOf pacts = [] := by
    have h := stagePerfStep_no_fmt env2 p
    rw [hps] at h
    exact h
  have hef : fmtActionsOf empActs = [] := by
    have h := ensureMountPoint_no_fmt req.stagingTargetPath env2.emp
    rw [hemp2] at h
    exact h
  rw [fmtActionsOf_append, fmtActionsOf_append, hpf, hef]
  simp [fmtActionsOf]

/-- A mounted target whose directory enumeration fails: the broken mount
link of claim C3. -/
def c3BrokenEnv : EMPEnv :=
  { goosWindows := false
    isLikelyNotMountPoint := (false, none)
    isCorruptedDir := false
    listMounts := .ok ["/stage"]
    absTarget := .ok "/stage"
    readDir := some "input output error"
    unmount := none
    makeDir := none }

theorem ensureMountPoint_broken_link_remount_witness :
    ensureMountPoint "/stage" c3BrokenEnv =
      ((false, some "input output error"), [OsAction.unmountFs "/stage"]) ∧
    (nodeStageVolume c4wReq c4Env []).1 = .ok () :=
  ⟨(ensureMountPoint_broken_link_remount "/stage" c3BrokenEnv "input output error"
      ["/stage"] "/stage" rfl rfl rfl rfl rfl rfl
      c4wReq c4Env [] ⟨.mnt ⟨"xfs", []⟩⟩ ⟨"xfs", []⟩ 1 "1" "/dev/sdc"
      [OsAction.mkDirAction "/stage"]
      (by decide) (by decide) rfl rfl rfl rfl (by decide) rfl rfl rfl (by decide) rfl rfl).1,
    (ensureMountPoint_broken_link_remount "/stage" c3BrokenEnv "input output error"
      ["/stage"] "/stage" rfl rfl rfl rfl rfl rfl
      c4wReq c4Env [] ⟨.mnt ⟨"xfs", []⟩⟩ ⟨"xfs", []⟩ 1 "1" "/dev/sdc"
      [OsAction.mkDirAction "/stage"]
      (by decide) (by decide) rfl rfl rfl rfl (by decide) rfl rfl rfl (by decide) rfl rfl).2.1⟩

end AzureDiskNode
